import Mathlib

/-!
Shallow embedding of `src/Util/Exception.h` from the OptiX Toolkit CUDA
opacity-micromap baking library (`otk-omm-baking`).

The header provides the error-reporting and assertion layer of the library:
an exception type `cuOmmBaking::Exception` carrying a `Result` code and a
message, two assertion macros (`OMM_ASSERT`, `OMM_ASSERT_MSG`), four CUDA
error-checking functions (throwing and non-throwing, over `cudaError_t` and
`CUresult`), and two call-site wrapper macros (`OMM_CUDA_CHECK`,
`OMM_CUDA_CHECK_NOTHROW`) whose expansion depends on whether `NDEBUG` is
defined.

Modelling conventions:
- `cudaError_t` and `CUresult` values are `Nat`, with the success sentinels
  `cudaSuccess = 0` and `CUDA_SUCCESS = 0`.
- The device error-description facilities (`cudaGetErrorString`,
  `cuGetErrorString`) are external to the repository and are passed in as a
  function argument `ges : Nat → String`.
- Control effects are made explicit by an `Outcome` value: normal return,
  a thrown `Exception`, or `std::terminate` after writing a diagnostic
  line to `std::cerr`.
- The two wrapper macros are modelled as run-functions over the result of
  the wrapped call and the result of the debug-mode `cudaDeviceSynchronize`
  follow-up call, together with a flag recording whether the synchronize
  call was actually issued.
-/

namespace cuOmmBaking

/-- Modelled from the spec: the library `Result` enumeration is declared in the
public interface header `CuOmmBaking.h`, which is not under `src/`; per the
spec it is a finite enumeration with one designated success value and distinct
failure causes, of which this layer uses the device-failure category
`ERROR_CUDA`. -/
inductive Result where
  | SUCCESS
  | ERROR_CUDA
  deriving DecidableEq, Repr

/-- `cuOmmBaking::Exception`, a `std::runtime_error` carrying a `Result`
member `m_result` (declared with default member initializer
`Result m_result = Result::SUCCESS;`) and the message stored in the
`std::runtime_error` base. The two-argument constructors store both. -/
structure Exception where
  m_result : Result
  msg : String
  deriving DecidableEq, Repr

/-- `Exception::getResult() const { return m_result; }` -/
def Exception.getResult (e : Exception) : Result :=
  e.m_result

/-- `getResult` as an explicit state-passing read: it returns the stored
`Result` together with the (unchanged) exception object, making the absence
of mutation visible in the model. -/
def Exception.getResultS (e : Exception) : Result × Exception :=
  (e.m_result, e)

/-- Modelled from the spec: the message-only `Exception` construction used by
the assertion macros (`throw Exception( ss.str().c_str() );`). The
single-argument constructor is not declared in the `src/` copy of the class
(it belongs with the public `CuOmmBaking.h` surface); per the spec and the
default member initializer `Result m_result = Result::SUCCESS;` it stores the
message and leaves the `Result` code at the success value. -/
def Exception.fromMessage (msg : String) : Exception :=
  ⟨Result.SUCCESS, msg⟩

/-- Control outcome of running one of the checking operations: normal
return, a thrown `Exception`, or `std::terminate()` after writing the given
diagnostic text to `std::cerr`. -/
inductive Outcome where
  | ok
  | raised (e : Exception)
  | terminated (diag : String)
  deriving DecidableEq, Repr

/-- The CUDA runtime success sentinel `cudaSuccess`. -/
def cudaSuccess : Nat := 0

/-- The CUDA driver success sentinel `CUDA_SUCCESS`. -/
def CUDA_SUCCESS : Nat := 0

/-- The expansion of the `__FILE__` token that appears (by string-literal
concatenation, `"' (" __FILE__`) inside the failure-message expression of
`checkCudaError( cudaError_t, ... )` in `Exception.h` itself. -/
def exceptionHeaderFILE : String := "src/Util/Exception.h"

/-- The expansion of the `__LINE__` token at that same point: the token sits
on line 110 of `Exception.h`. -/
def exceptionHeaderLINE : Nat := 110

/-- The diagnostic text composed by all four CUDA checking functions:
`"CUDA call (" << expr << " ) failed with error: '" << errText << "' (" << file << ":" << line << ")\n"`. -/
def cudaFailMessage (expr errText file : String) (line : Nat) : String :=
  "CUDA call (" ++ expr ++ " ) failed with error: '" ++ errText ++ "' (" ++
    file ++ ":" ++ toString line ++ ")\n"

/-- `checkCudaError( cudaError_t error, const char* expr, const char* /*file*/, unsigned int /*line*/ )`:
on `error != cudaSuccess` it throws `Exception( Result::ERROR_CUDA, ... )`.
Note that the `file` and `line` parameters are unused by the source: the
message embeds the header's own `__FILE__` and `__LINE__` instead. -/
def checkCudaError_runtime (ges : Nat → String) (error : Nat)
    (expr : String) (file : String) (line : Nat) : Outcome :=
  if error ≠ cudaSuccess then
    Outcome.raised ⟨Result.ERROR_CUDA,
      cudaFailMessage expr (ges error) exceptionHeaderFILE exceptionHeaderLINE⟩
  else
    Outcome.ok

/-- `checkCudaErrorNoThrow( cudaError_t error, const char* expr, const char* file, unsigned int line ) noexcept`:
on failure it writes the diagnostic to `std::cerr` and calls
`std::terminate()`; it never throws. -/
def checkCudaErrorNoThrow_runtime (ges : Nat → String) (error : Nat)
    (expr file : String) (line : Nat) : Outcome :=
  if error ≠ cudaSuccess then
    Outcome.terminated (cudaFailMessage expr (ges error) file line)
  else
    Outcome.ok

/-- `checkCudaError( CUresult result, const char* expr, const char* file, unsigned int line )`:
on `result != CUDA_SUCCESS` it obtains the error text via `cuGetErrorString`
and throws `Exception( Result::ERROR_CUDA, ... )` with the caller-supplied
`file` and `line` in the message. -/
def checkCudaError_driver (ges : Nat → String) (result : Nat)
    (expr file : String) (line : Nat) : Outcome :=
  if result ≠ CUDA_SUCCESS then
    Outcome.raised ⟨Result.ERROR_CUDA, cudaFailMessage expr (ges result) file line⟩
  else
    Outcome.ok

/-- `checkCudaErrorNoThrow( CUresult result, const char* expr, const char* file, unsigned int line ) noexcept`:
on failure it writes the diagnostic to `std::cerr` and calls
`std::terminate()`; it never throws. -/
def checkCudaErrorNoThrow_driver (ges : Nat → String) (result : Nat)
    (expr file : String) (line : Nat) : Outcome :=
  if result ≠ CUDA_SUCCESS then
    Outcome.terminated (cudaFailMessage expr (ges result) file line)
  else
    Outcome.ok

/-- The location-and-condition text built by `OMM_ASSERT`:
`ss << __FILE__ << " (" << __LINE__ << "): " << #cond`. -/
def assertLocationText (file : String) (line : Nat) (condText : String) : String :=
  file ++ " (" ++ toString line ++ "): " ++ condText

/-- `OMM_ASSERT( cond )`: if the condition is false, builds the
location-and-condition text and throws the message-only `Exception`;
otherwise it does nothing. `condText` is the preprocessor stringization
`#cond`, `file` and `line` come from `__FILE__` and `__LINE__` at the call
site. -/
def OMM_ASSERT (cond : Bool) (condText file : String) (line : Nat) : Outcome :=
  if cond then
    Outcome.ok
  else
    Outcome.raised (Exception.fromMessage (assertLocationText file line condText))

/-- `OMM_ASSERT_MSG( cond, msg )`: as `OMM_ASSERT`, but the thrown message is
`( msg ) << ": " <<` the location-and-condition text. -/
def OMM_ASSERT_MSG (cond : Bool) (msg condText file : String) (line : Nat) : Outcome :=
  if cond then
    Outcome.ok
  else
    Outcome.raised (Exception.fromMessage (msg ++ ": " ++ assertLocationText file line condText))

/-- Result of running one of the call-site wrapper macros: whether the
debug-mode `cudaDeviceSynchronize()` call was actually issued, and the
control outcome of the whole expansion. -/
structure MacroRun where
  syncCalled : Bool
  outcome : Outcome
  deriving DecidableEq, Repr

/-- `OMM_CUDA_CHECK( call )`. With `NDEBUG` defined (release) it expands to a
single `checkCudaError( call, ... )`. With `NDEBUG` undefined (debug) it
expands to `checkCudaError( call, ... )` followed by
`checkCudaError( cudaDeviceSynchronize(), ... )`; the synchronize call is
only reached when the first check returns normally. `callResult` is the value
of `call` (a `cudaError_t`), `syncResult` the value of
`cudaDeviceSynchronize()`. -/
def OMM_CUDA_CHECK_run (ndebugDefined : Bool) (ges : Nat → String)
    (callResult syncResult : Nat) (callText file : String) (line : Nat) : MacroRun :=
  if ndebugDefined then
    ⟨false, checkCudaError_runtime ges callResult callText file line⟩
  else
    match checkCudaError_runtime ges callResult callText file line with
    | Outcome.ok => ⟨true, checkCudaError_runtime ges syncResult callText file line⟩
    | o => ⟨false, o⟩

/-- `OMM_CUDA_CHECK_NOTHROW( call )`. With `NDEBUG` defined (release) it
expands to a single `checkCudaErrorNoThrow( call, ... )`. With `NDEBUG`
undefined (debug) it expands to `checkCudaErrorNoThrow( call, ... )` followed
by `checkCudaError( cudaDeviceSynchronize(), ... )` — note that the source
checks the synchronize result through the THROWING `checkCudaError`, exactly
as written on line 161 of `Exception.h`. -/
def OMM_CUDA_CHECK_NOTHROW_run (ndebugDefined : Bool) (ges : Nat → String)
    (callResult syncResult : Nat) (callText file : String) (line : Nat) : MacroRun :=
  if ndebugDefined then
    ⟨false, checkCudaErrorNoThrow_runtime ges callResult callText file line⟩
  else
    match checkCudaErrorNoThrow_runtime ges callResult callText file line with
    | Outcome.ok => ⟨true, checkCudaError_runtime ges syncResult callText file line⟩
    | o => ⟨false, o⟩

/-- C1 (counter-evidence, evaluation at the failing input): the throwing
`cudaError_t` check produces, for any non-success value, a message that is
completely independent of the call-site `file` and `line` arguments; at the
spec's own scenario input (expression `computeLaunch(...)`, file `build.cpp`,
line `42`) the raised message embeds the header's `src/Util/Exception.h:110`
and contains neither `build.cpp` nor `42`. -/
theorem c1_runtime_check_ignores_call_site :
    (∀ ges e expr f1 l1 f2 l2,
        checkCudaError_runtime ges e expr f1 l1 = checkCudaError_runtime ges e expr f2 l2)
    ∧ checkCudaError_runtime (fun _ => "invalid value") 1 "computeLaunch(...)" "build.cpp" 42
        = Outcome.raised ⟨Result.ERROR_CUDA,
            "CUDA call (computeLaunch(...) ) failed with error: 'invalid value' (src/Util/Exception.h:110)\n"⟩ :=
  ⟨fun _ _ _ _ _ _ _ => rfl, rfl⟩

/-- C2 (counter-evidence, evaluation at the failing input): in a debug build
(`NDEBUG` undefined), when the wrapped call returns `cudaSuccess` but the
follow-up `cudaDeviceSynchronize()` returns a non-success value, the
`OMM_CUDA_CHECK_NOTHROW` expansion throws an `Exception` instead of writing a
diagnostic and terminating. -/
theorem c2_nothrow_macro_raises_in_debug :
    OMM_CUDA_CHECK_NOTHROW_run false (fun _ => "unknown error") 0 1
        "cudaFree( ptr )" "teardown.cpp" 12
      = ⟨true, Outcome.raised ⟨Result.ERROR_CUDA,
          cudaFailMessage "cudaFree( ptr )" "unknown error"
            exceptionHeaderFILE exceptionHeaderLINE⟩⟩ :=
  rfl

/-- C3: for the designated success sentinel, each of the four checking
functions returns normally: nothing is raised, no diagnostic text is
produced, and the process is not terminated. -/
theorem c3_success_is_noop :
    ∀ ges expr f l,
      checkCudaError_runtime ges cudaSuccess expr f l = Outcome.ok ∧
      checkCudaErrorNoThrow_runtime ges cudaSuccess expr f l = Outcome.ok ∧
      checkCudaError_driver ges CUDA_SUCCESS expr f l = Outcome.ok ∧
      checkCudaErrorNoThrow_driver ges CUDA_SUCCESS expr f l = Outcome.ok :=
  fun _ _ _ _ => ⟨rfl, rfl, rfl, rfl⟩

/-- C4: with `NDEBUG` undefined (debug), a wrapped call that passes its own
check is immediately followed by a `cudaDeviceSynchronize()` whose result is
checked through the same throwing `checkCudaError`; with `NDEBUG` defined
(release), the synchronize call is never issued and the run is independent of
the synchronize result. -/
theorem c4_debug_sync_check :
    ∀ ges c s expr f l,
      (OMM_CUDA_CHECK_run false ges cudaSuccess s expr f l).syncCalled = true ∧
      (OMM_CUDA_CHECK_run false ges cudaSuccess s expr f l).outcome
          = checkCudaError_runtime ges s expr f l ∧
      (OMM_CUDA_CHECK_run true ges c s expr f l).syncCalled = false ∧
      OMM_CUDA_CHECK_run true ges c s expr f l
          = OMM_CUDA_CHECK_run true ges c cudaSuccess expr f l :=
  fun _ _ _ _ _ _ => ⟨rfl, rfl, rfl, rfl⟩

/-- C5: an `Exception` raised by the generic-assertion path (message-only
construction) answers `Result.SUCCESS` from `getResult`, for both assertion
macros; an `Exception` raised by the device-call path answers
`Result.ERROR_CUDA`. -/
theorem c5_assert_result_defaults_to_success :
    ∀ condText msg f l ges e expr,
      (∃ ex, OMM_ASSERT false condText f l = Outcome.raised ex
          ∧ ex.getResult = Result.SUCCESS) ∧
      (∃ ex, OMM_ASSERT_MSG false msg condText f l = Outcome.raised ex
          ∧ ex.getResult = Result.SUCCESS) ∧
      (e ≠ cudaSuccess →
        ∃ ex, checkCudaError_runtime ges e expr f l = Outcome.raised ex
            ∧ ex.getResult = Result.ERROR_CUDA) := by
  intro condText msg f l ges e expr
  refine ⟨⟨_, rfl, rfl⟩, ⟨_, rfl, rfl⟩, fun he => ?_⟩
  exact ⟨⟨Result.ERROR_CUDA,
      cudaFailMessage expr (ges e) exceptionHeaderFILE exceptionHeaderLINE⟩,
    by simp [checkCudaError_runtime, he], rfl⟩

/-- C5 witness: the device-call conjunct applied at the concrete non-success
value `1`. -/
theorem c5_witness :
    (1 : Nat) ≠ cudaSuccess ∧
      ∃ ex, checkCudaError_runtime (fun _ => "err") 1 "launch()" "a.cpp" 3 = Outcome.raised ex
          ∧ ex.getResult = Result.ERROR_CUDA :=
  ⟨by decide,
    (c5_assert_result_defaults_to_success "c" "m" "a.cpp" 3 (fun _ => "err") 1 "launch()").2.2
      (by decide)⟩

/-- C6: `OMM_ASSERT` on a false condition raises an `Exception` whose message
is exactly `<file> (<line>): <condition text>`; in particular the assertion
`ptr != null` failing at line 10 of `setup.cpp` yields exactly
`setup.cpp (10): ptr != null`. -/
theorem c6_plain_assert_message_format :
    (∀ condText f l,
        OMM_ASSERT false condText f l
          = Outcome.raised (Exception.fromMessage
              (f ++ " (" ++ toString l ++ "): " ++ condText)))
    ∧ OMM_ASSERT false "ptr != null" "setup.cpp" 10
        = Outcome.raised ⟨Result.SUCCESS, "setup.cpp (10): ptr != null"⟩ :=
  ⟨fun _ _ _ => rfl, rfl⟩

/-- C7: `OMM_ASSERT_MSG` on a false condition raises an `Exception` whose
message is the caller-supplied message, then `": "`, then the plain-assert
location-and-condition text; with custom message `invalid size` the raised
message begins with `invalid size: `. -/
theorem c7_msg_assert_prepends_message :
    (∀ msg condText f l,
        OMM_ASSERT_MSG false msg condText f l
          = Outcome.raised (Exception.fromMessage
              (msg ++ ": " ++ assertLocationText f l condText)))
    ∧ OMM_ASSERT_MSG false "invalid size" "size > 0" "shape.cpp" 77
        = Outcome.raised (Exception.fromMessage
            ("invalid size: " ++ assertLocationText "shape.cpp" 77 "size > 0")) :=
  ⟨fun _ _ _ _ => rfl, rfl⟩

/-- C8: on a true condition both assertion macros return normally; no
`Exception` is raised and no message is constructed on that path. -/
theorem c8_true_condition_no_raise :
    ∀ condText msg f l,
      OMM_ASSERT true condText f l = Outcome.ok ∧
      OMM_ASSERT_MSG true msg condText f l = Outcome.ok :=
  fun _ _ _ _ => ⟨rfl, rfl⟩

/-- C9: for every `Result` and message, constructing an `Exception` and
reading its `Result` code twice (threading the exception value through each
read) yields the stored code both times, and the reads leave the exception
unchanged. -/
theorem c9_getResult_idempotent :
    ∀ r m,
      ((Exception.mk r m).getResultS).1 = r ∧
      ((Exception.mk r m).getResultS).2 = Exception.mk r m ∧
      (((Exception.mk r m).getResultS).2.getResultS).1
          = ((Exception.mk r m).getResultS).1 ∧
      (Exception.mk r m).getResult = (Exception.mk r m).getResult :=
  fun _ _ => ⟨rfl, rfl, rfl, rfl⟩

/-- C10: in a debug build, `OMM_CUDA_CHECK_NOTHROW` checks the result of its
follow-up `cudaDeviceSynchronize()` through the throwing `checkCudaError`
(whenever the wrapped call succeeds, the run ends with exactly that throwing
check's outcome); consequently, at the concrete input where the wrapped call
returns `cudaSuccess` and the synchronize returns `700`, the macro raises an
`Exception` rather than terminating. -/
theorem c10_nothrow_macro_uses_throwing_sync_check :
    (∀ ges s expr f l,
        OMM_CUDA_CHECK_NOTHROW_run false ges 0 s expr f l
          = ⟨true, checkCudaError_runtime ges s expr f l⟩)
    ∧ ∃ ex,
        (OMM_CUDA_CHECK_NOTHROW_run false (fun _ => "an illegal memory access was encountered")
            0 700 "cudaMemcpy( dst, src, n, kind )" "copy.cpp" 33).outcome
          = Outcome.raised ex :=
  ⟨fun _ _ _ _ _ => rfl, ⟨_, rfl⟩⟩

end cuOmmBaking
